import Mathlib

/-!
Verification of the `Embedder` component from `core/embedder.py`.

The embedding is shallow: Python dictionaries become total functions
`String → Option V` (mapping semantics), the model client becomes a record
of oracles (an initialization result and a call function), exceptions become
an `Except` error channel with a sum type distinguishing the exceptions the
component itself raises (`ValueError`, `TypeError`) from exceptions raised
by the client (carried unchanged as a payload of type `ε`), and the
observable external interactions of a run (client initialization, client
calls with their arguments, output-processor invocations) are recorded in an
event trace returned alongside the result.

Aliasing and mutation of dictionaries, which the value-level model cannot
express, are modelled separately by a small store of dictionary references
(`Store`), mirroring exactly the heap operations the source performs:
`dict.copy()` at construction and allocation of a fresh merged dictionary at
each call.
-/

/-- A Python `Dict` with string keys, in mapping semantics: a total function
from keys to optional values. -/
def Dict (V : Type) : Type := String → Option V

namespace Dict

/-- Value-level semantics of Python `dict.copy()`: the copied dictionary maps
every key exactly as the original. The fact that the copy is a fresh object
(so later mutation of the original does not affect it) is modelled at the
store level below. -/
def copy {V : Type} (d : Dict V) : Dict V := fun k => d k

/-- The empty dictionary `{}`. -/
def empty {V : Type} : Dict V := fun _ => none

/-- A one-entry dictionary. -/
def single {V : Type} (k : String) (v : V) : Dict V :=
  fun q => if q = k then some v else none

/-- Python `k in d` membership test. -/
def hasKey {V : Type} (d : Dict V) (k : String) : Bool := (d k).isSome

end Dict

/-- Modelled from the spec: the `ModelType` enumeration of `core/data_classes.py`
(not among the provided sources) is a fixed set of tags distinguishing
model-invocation kinds; this component always uses the `EMBEDDER` tag. -/
inductive ModelType where
  | EMBEDDER
  | LLM
  | UNDEFINED
deriving DecidableEq

/-- The error channel of the embedding. `valueError` and `typeError` are the
exceptions raised by the component itself; `clientError` carries, unchanged,
an exception raised by the model client (of abstract type `ε`). -/
inductive EmbedderError (ε : Type) where
  | valueError (msg : String)
  | typeError (msg : String)
  | clientError (e : ε)
deriving DecidableEq

/-- Observable external interactions of a run: the client's synchronous-channel
initialization, a client call with the exact arguments passed, and an
output-processor invocation with the response it received. -/
inductive Event (ι V ρ : Type) where
  | initSyncClient
  | clientCall (input : ι) (model_kwargs : Dict V) (model_type : ModelType)
  | procCall (response : ρ)

/-- Whether an event is the client's synchronous-channel initialization. -/
def Event.isInit {ι V ρ : Type} : Event ι V ρ → Bool
  | .initSyncClient => true
  | _ => false

/-- Whether an event is a client call. -/
def Event.isClientCall {ι V ρ : Type} : Event ι V ρ → Bool
  | .clientCall _ _ _ => true
  | _ => false

/-- Whether an event is an output-processor invocation. -/
def Event.isProcCall {ι V ρ : Type} : Event ι V ρ → Bool
  | .procCall _ => true
  | _ => false

/-- The `APIClient` collaborator, as the narrow interface the source uses:
`_init_sync_client()` is modelled by its outcome `initResult` (success or an
exception of type `ε`), and `call(input=, model_kwargs=, model_type=)` by the
oracle `callFn`, which either returns a raw response of type `ρ` or raises an
exception of type `ε`. -/
structure APIClient (ι V ρ ε : Type) where
  initResult : Except ε Unit
  callFn : ι → Dict V → ModelType → Except ε ρ

/-- Modelled from the spec: `F.compose_model_kwargs` of `core/functional.py`
(not among the provided sources) produces a new mapping equal to `defaults`
with every key in `overrides` overwritten by the override value; keys present
only in `defaults` are preserved, keys present only in `overrides` are added,
and neither input is mutated (non-mutation is modelled at the store level). -/
def compose_model_kwargs {V : Type} (defaults overrides : Dict V) : Dict V :=
  fun k =>
    match overrides k with
    | some v => some v
    | none => defaults k

/-- The `Embedder` component state after construction: the stored defaults
(`self.model_kwargs`, a copy of the constructor argument), the client
reference, and the optional output processor (modelled as a function from raw
response `ρ` to processed result `σ`). -/
structure Embedder (ι V ρ σ ε : Type) where
  model_kwargs : Dict V
  model_client : APIClient ι V ρ ε
  output_processors : Option (ρ → σ)

/-- The class attribute `model_type = ModelType.EMBEDDER`. -/
def Embedder.model_type : ModelType := ModelType.EMBEDDER

/-- The exact `ValueError` message of `Embedder.__init__` (the component type
name followed by the missing-key text). -/
def missingModelMsg : String :=
  "Embedder requires a \x27model\x27 to be passed in the model_kwargs"

/-- The `TypeError` Python raises when `**model_kwargs` is applied to `None`
in `Embedder.call`. -/
def typeErrorMsg : String :=
  "argument after ** must be a mapping, not NoneType"

/-- `Embedder.__init__`: copy `model_kwargs`, raise `ValueError` if the key
`model` is absent, store the client and the optional output processors, then
eagerly run `self.model_client._init_sync_client()`; an exception from that
initialization propagates and construction fails. Returns the constructed
instance (or the exception) together with the event trace of the run. -/
def Embedder.construct {ι V ρ σ ε : Type} (model_client : APIClient ι V ρ ε)
    (model_kwargs : Dict V) (output_processors : Option (ρ → σ)) :
    Except (EmbedderError ε) (Embedder ι V ρ σ ε) × List (Event ι V ρ) :=
  let stored := Dict.copy model_kwargs
  if ! Dict.hasKey model_kwargs "model" then
    (Except.error (EmbedderError.valueError missingModelMsg), [])
  else
    match model_client.initResult with
    | Except.error e => (Except.error (EmbedderError.clientError e), [Event.initSyncClient])
    | Except.ok _ =>
        (Except.ok { model_kwargs := stored, model_client := model_client,
                     output_processors := output_processors },
         [Event.initSyncClient])

/-- `Embedder.update_default_model_kwargs`: merge the stored defaults with the
per-call overrides via `F.compose_model_kwargs`. -/
def Embedder.update_default_model_kwargs {ι V ρ σ ε : Type}
    (e : Embedder ι V ρ σ ε) (model_kwargs : Dict V) : Dict V :=
  compose_model_kwargs e.model_kwargs model_kwargs

/-- `Embedder.call`: the `model_kwargs` parameter is `Optional[Dict] = {}`, so
an explicitly passed `None` (here `Option.none`; the default and any mapping
argument are `some`) makes the `**model_kwargs` expansion raise `TypeError`
before anything else runs. Otherwise: merge the configurations, invoke
`self.model_client.call(input=input, model_kwargs=composed, model_type=self.model_type)`
(a client exception propagates unchanged), then, if output processors are
present, return their result applied to the raw response; if absent, the
method falls off the end and returns `None` (here `Option.none` in the result).
The event trace of the run is returned alongside. -/
def Embedder.call {ι V ρ σ ε : Type} (e : Embedder ι V ρ σ ε) (input : ι)
    (model_kwargs : Option (Dict V)) :
    Except (EmbedderError ε) (Option σ) × List (Event ι V ρ) :=
  match model_kwargs with
  | none => (Except.error (EmbedderError.typeError typeErrorMsg), [])
  | some mkw =>
    let composed := e.update_default_model_kwargs mkw
    match e.model_client.callFn input composed Embedder.model_type with
    | Except.error err =>
        (Except.error (EmbedderError.clientError err),
         [Event.clientCall input composed Embedder.model_type])
    | Except.ok response =>
        match e.output_processors with
        | some p =>
            (Except.ok (some (p response)),
             [Event.clientCall input composed Embedder.model_type,
              Event.procCall response])
        | none =>
            (Except.ok none,
             [Event.clientCall input composed Embedder.model_type])

/-!
Store model of dictionary aliasing. A `Store` holds the values of all
allocated dictionary objects, addressed by natural-number references; every
reference below `next` is allocated. The source performs exactly two heap
operations on dictionaries: `dict.copy()` at construction (a fresh allocation
holding the same mapping) and the allocation of the fresh merged dictionary
`composed_model_kwargs` at each call. Caller-side mutation of a dictionary
object is `Store.write`.
-/

/-- A heap of dictionary objects addressed by references `0, …, next - 1`. -/
structure Store (V : Type) where
  mem : Nat → Dict V
  next : Nat

/-- Allocate a fresh dictionary object holding mapping `d`; returns its
reference and the extended store. -/
def Store.alloc {V : Type} (s : Store V) (d : Dict V) : Nat × Store V :=
  (s.next,
   { mem := fun r => if r = s.next then d else s.mem r, next := s.next + 1 })

/-- In-place mutation of the dictionary object at reference `r` (what a caller
does when it mutates a dictionary it owns). -/
def Store.write {V : Type} (s : Store V) (r : Nat) (d : Dict V) : Store V :=
  { mem := fun q => if q = r then d else s.mem q, next := s.next }

/-- The heap effect of `Embedder.__init__` on dictionaries: given the
reference `r0` of the caller's `model_kwargs` object, allocate
`model_kwargs.copy()` and return the reference the instance stores. -/
def constructHeap {V : Type} (s : Store V) (r0 : Nat) : Nat × Store V :=
  Store.alloc s (Dict.copy (s.mem r0))

/-- The heap effect of `F.compose_model_kwargs` (modelled from the spec, see
`compose_model_kwargs`): allocate a new dictionary holding the merged mapping;
the operand objects are not written. -/
def composeHeap {V : Type} (s : Store V) (rD rO : Nat) : Nat × Store V :=
  Store.alloc s (compose_model_kwargs (s.mem rD) (s.mem rO))

/-- The heap effect of one `Embedder.call` on dictionaries, given the
reference `r1` of the stored defaults and the overrides mapping: a fresh
merged dictionary is allocated; nothing existing is written. -/
def callHeap {V : Type} (s : Store V) (r1 : Nat) (overrides : Dict V) : Store V :=
  (Store.alloc s (compose_model_kwargs (s.mem r1) overrides)).2

/-- The heap effect of a sequence of calls with the given override mappings. -/
def callSeq {V : Type} (s : Store V) (r1 : Nat) (calls : List (Dict V)) : Store V :=
  calls.foldl (fun st o => callHeap st r1 o) s

/-- Allocation leaves every already-allocated reference unchanged. -/
theorem Store.alloc_mem_lt {V : Type} (s : Store V) (d : Dict V) (r : Nat)
    (h : r < s.next) : (s.alloc d).2.mem r = s.mem r := by
  simp [Store.alloc, Nat.ne_of_lt h]

/-- Reading back the reference an allocation returned yields the allocated
mapping. -/
theorem Store.alloc_mem_self {V : Type} (s : Store V) (d : Dict V) :
    (s.alloc d).2.mem (s.alloc d).1 = d := by
  simp [Store.alloc]

/-- Allocation increments the allocation bound. -/
theorem Store.alloc_next {V : Type} (s : Store V) (d : Dict V) :
    (s.alloc d).2.next = s.next + 1 := rfl

/-- A sequence of calls never writes an already-allocated reference: the
mapping stored at any valid reference is unchanged. -/
theorem callSeq_mem {V : Type} (calls : List (Dict V)) :
    ∀ (st : Store V) (r1 : Nat), r1 < st.next →
      (callSeq st r1 calls).mem r1 = st.mem r1 := by
  induction calls with
  | nil => intro st r1 _; rfl
  | cons o rest ih =>
      intro st r1 h
      have hstep : (callHeap st r1 o).mem r1 = st.mem r1 :=
        Store.alloc_mem_lt st _ r1 h
      have hnext : r1 < (callHeap st r1 o).next := by
        simp [callHeap, Store.alloc_next]
        exact Nat.lt_succ_of_lt h
      calc (callSeq st r1 (o :: rest)).mem r1
          = (callSeq (callHeap st r1 o) r1 rest).mem r1 := rfl
        _ = (callHeap st r1 o).mem r1 := ih (callHeap st r1 o) r1 hnext
        _ = st.mem r1 := hstep

/-- A concrete well-behaved client used in witnesses: initialization succeeds
and every call returns the raw response string "RAW". -/
def cEx : APIClient String String String String :=
  { initResult := Except.ok (), callFn := fun _ _ _ => Except.ok "RAW" }

/-- A concrete client whose call operation raises the exception "boom". -/
def cErr : APIClient String String String String :=
  { initResult := Except.ok (), callFn := fun _ _ _ => Except.error "boom" }

/-- A concrete client whose synchronous-channel initialization raises the
exception "initfail". -/
def cInitFail : APIClient String String String String :=
  { initResult := Except.error "initfail", callFn := fun _ _ _ => Except.ok "RAW" }

/-- A concrete defaults mapping containing the required "model" key. -/
def DmEx : Dict String := Dict.single "model" "m"

/-- The end-to-end scenario defaults: model "text-embed-v1". -/
def Dv1 : Dict String := Dict.single "model" "text-embed-v1"

/-- The end-to-end scenario overrides: model "text-embed-v2". -/
def Ov2 : Dict String := Dict.single "model" "text-embed-v2"

/-- A concrete embedder with an output processor appending "!". -/
def eW : Embedder String String String String String :=
  { model_kwargs := DmEx, model_client := cEx,
    output_processors := some (fun r => r ++ "!") }

/-- A concrete embedder with no output processor wired to the failing-call
client. -/
def eErr : Embedder String String String String String :=
  { model_kwargs := DmEx, model_client := cErr, output_processors := none }

/-- The embedder produced by the end-to-end construction: stored defaults are
the copy of `Dv1`, no output processor. -/
def e9 : Embedder String String String String String :=
  { model_kwargs := Dict.copy Dv1, model_client := cEx, output_processors := none }

/-- A concrete two-dictionary store: reference 0 holds the defaults `DmEx`,
reference 1 holds the overrides `Ov2`. -/
def sEx : Store String :=
  { mem := fun r => if r = 0 then DmEx else if r = 1 then Ov2 else Dict.empty,
    next := 2 }

/-- Claim C1: for every embedder whose output processor is present (non-none),
every input and every overrides mapping, whenever the client returns a raw
response, `call` returns exactly the processor applied to that raw response,
the trace shows the processor invoked exactly once (on the raw response), and
no further transformation is applied. -/
theorem call_applies_processor {ι V ρ σ ε : Type} (e : Embedder ι V ρ σ ε)
    (input : ι) (o : Dict V) (p : ρ → σ) (resp : ρ)
    (hp : e.output_processors = some p)
    (hc : e.model_client.callFn input (compose_model_kwargs e.model_kwargs o)
        Embedder.model_type = Except.ok resp) :
    e.call input (some o) =
      (Except.ok (some (p resp)),
       [Event.clientCall input (compose_model_kwargs e.model_kwargs o)
          Embedder.model_type,
        Event.procCall resp]) := by
  simp [Embedder.call, Embedder.update_default_model_kwargs, hc, hp]

/-- Concrete run of `call_applies_processor` on the embedder `eW`. -/
theorem call_applies_processor_witness :
    eW.call "in" (some Dict.empty) =
      (Except.ok (some "RAW!"),
       [Event.clientCall "in" (compose_model_kwargs eW.model_kwargs Dict.empty)
          Embedder.model_type,
        Event.procCall "RAW"]) :=
  call_applies_processor eW "in" Dict.empty (fun r => r ++ "!") "RAW" rfl rfl

/-- Claim C2: the configuration merge used by `call` returns a new mapping in
which every key of the overrides has the override value, every key absent
from the overrides has the defaults value (so keys of the defaults not
overridden are unchanged, and keys in neither are absent), and neither the
defaults object nor the overrides object is mutated by the merge. -/
theorem compose_model_kwargs_merge {V : Type} (s : Store V) (rD rO : Nat)
    (hD : rD < s.next) (hO : rO < s.next) :
    (∀ k v, s.mem rO k = some v →
        (composeHeap s rD rO).2.mem (composeHeap s rD rO).1 k = some v) ∧
    (∀ k, s.mem rO k = none →
        (composeHeap s rD rO).2.mem (composeHeap s rD rO).1 k = s.mem rD k) ∧
    (∀ k, s.mem rD k = none → s.mem rO k = none →
        (composeHeap s rD rO).2.mem (composeHeap s rD rO).1 k = none) ∧
    (composeHeap s rD rO).2.mem rD = s.mem rD ∧
    (composeHeap s rD rO).2.mem rO = s.mem rO := by
  have hself : (composeHeap s rD rO).2.mem (composeHeap s rD rO).1
      = compose_model_kwargs (s.mem rD) (s.mem rO) :=
    Store.alloc_mem_self s _
  refine ⟨?_, ?_, ?_, ?_, ?_⟩
  · intro k v hk; rw [hself]; simp [compose_model_kwargs, hk]
  · intro k hk; rw [hself]; simp [compose_model_kwargs, hk]
  · intro k hd hk; rw [hself]; simp [compose_model_kwargs, hk, hd]
  · exact Store.alloc_mem_lt s _ rD hD
  · exact Store.alloc_mem_lt s _ rO hO

/-- Concrete run of `compose_model_kwargs_merge` on the store `sEx`: the
override value wins for the key "model". -/
theorem compose_model_kwargs_merge_witness :
    (composeHeap sEx 0 1).2.mem (composeHeap sEx 0 1).1 "model"
      = some "text-embed-v2" :=
  (compose_model_kwargs_merge sEx 0 1 (by decide) (by decide)).1
    "model" "text-embed-v2" rfl

/-- Claim C3: construction fails with the `ValueError` naming the missing
"model" key and the `Embedder` component type for every `model_kwargs`
lacking that key, and (with a client whose initialization succeeds) succeeds
for every mapping containing it, whatever other pairs are present. -/
theorem construct_requires_model {ι V ρ σ ε : Type} (c : APIClient ι V ρ ε)
    (d : Dict V) (procOpt : Option (ρ → σ)) :
    (d "model" = none →
      (Embedder.construct c d procOpt).1
        = Except.error (EmbedderError.valueError missingModelMsg)) ∧
    ((d "model").isSome = true → c.initResult = Except.ok () →
      (Embedder.construct c d procOpt).1
        = Except.ok { model_kwargs := Dict.copy d, model_client := c,
                      output_processors := procOpt }) := by
  constructor
  · intro h
    simp [Embedder.construct, Dict.hasKey, h]
  · intro h hinit
    simp [Embedder.construct, Dict.hasKey, h, hinit]

/-- Concrete runs of `construct_requires_model`: failure on the empty mapping
and success on `DmEx`. -/
theorem construct_requires_model_witness :
    (Embedder.construct cEx Dict.empty (none : Option (String → String))).1
        = Except.error (EmbedderError.valueError missingModelMsg) ∧
    (Embedder.construct cEx DmEx (none : Option (String → String))).1
        = Except.ok { model_kwargs := Dict.copy DmEx, model_client := cEx,
                      output_processors := none } :=
  ⟨(construct_requires_model cEx Dict.empty none).1 rfl,
   (construct_requires_model cEx DmEx none).2 (by decide) rfl⟩

/-- Claim C4: for every embedder constructed without an output processor,
`call` returns the explicit no-result signal (`Option.none` in a successful
`Except`, an absence rather than an error) for every input, overrides mapping
and client response. -/
theorem call_no_processor {ι V ρ σ ε : Type} (e : Embedder ι V ρ σ ε)
    (input : ι) (o : Dict V) (resp : ρ)
    (hp : e.output_processors = none)
    (hc : e.model_client.callFn input (compose_model_kwargs e.model_kwargs o)
        Embedder.model_type = Except.ok resp) :
    (e.call input (some o)).1 = Except.ok none := by
  simp [Embedder.call, Embedder.update_default_model_kwargs, hc, hp]

/-- Concrete run of `call_no_processor` on the embedder `e9`. -/
theorem call_no_processor_witness :
    (e9.call "hello" (some Dict.empty)).1 = Except.ok none :=
  call_no_processor e9 "hello" Dict.empty "RAW" rfl rfl

/-- Claim C5: the stored defaults are a defensive copy taken at construction
(reading the stored reference gives a copy of the caller's mapping), mutating
the caller's original object after construction leaves the stored defaults
unchanged, and any sequence of calls with arbitrary overrides leaves the
stored defaults identical, each call allocating a fresh merged mapping. -/
theorem defensive_copy_stable {V : Type} (s : Store V) (r0 : Nat)
    (h : r0 < s.next) (d2 : Dict V) (calls : List (Dict V)) :
    (constructHeap s r0).2.mem (constructHeap s r0).1 = Dict.copy (s.mem r0) ∧
    ((constructHeap s r0).2.write r0 d2).mem (constructHeap s r0).1
      = Dict.copy (s.mem r0) ∧
    (callSeq (constructHeap s r0).2 (constructHeap s r0).1 calls).mem
        (constructHeap s r0).1 = Dict.copy (s.mem r0) := by
  have hself : (constructHeap s r0).2.mem (constructHeap s r0).1
      = Dict.copy (s.mem r0) :=
    Store.alloc_mem_self s (Dict.copy (s.mem r0))
  have hne2 : (constructHeap s r0).1 ≠ r0 := Ne.symm (Nat.ne_of_lt h)
  refine ⟨hself, ?_, ?_⟩
  · calc ((constructHeap s r0).2.write r0 d2).mem (constructHeap s r0).1
        = (constructHeap s r0).2.mem (constructHeap s r0).1 := by
          simp [Store.write, hne2]
      _ = Dict.copy (s.mem r0) := hself
  · have hlt : (constructHeap s r0).1 < (constructHeap s r0).2.next := by
      simp [constructHeap, Store.alloc]
    rw [callSeq_mem calls _ _ hlt, hself]

/-- Concrete run of `defensive_copy_stable` on the store `sEx`: after the
caller overwrites its own object at reference 0, the stored copy still holds
the original mapping. -/
theorem defensive_copy_stable_witness :
    ((constructHeap sEx 0).2.write 0 Dict.empty).mem (constructHeap sEx 0).1
      = Dict.copy (sEx.mem 0) :=
  (defensive_copy_stable sEx 0 (by decide) Dict.empty [Ov2, Dict.empty]).2.1

/-- Claim C6: any exception raised by the client's call operation during
`call` propagates unchanged to the caller: the result is exactly the client's
error (no catching, retry, wrapping, translation or suppression), and the
trace shows nothing after the failed client call. -/
theorem call_propagates_client_error {ι V ρ σ ε : Type}
    (e : Embedder ι V ρ σ ε) (input : ι) (o : Dict V) (err : ε)
    (hc : e.model_client.callFn input (compose_model_kwargs e.model_kwargs o)
        Embedder.model_type = Except.error err) :
    e.call input (some o) =
      (Except.error (EmbedderError.clientError err),
       [Event.clientCall input (compose_model_kwargs e.model_kwargs o)
          Embedder.model_type]) := by
  simp [Embedder.call, Embedder.update_default_model_kwargs, hc]

/-- Concrete run of `call_propagates_client_error` on the embedder `eErr`,
whose client raises "boom". -/
theorem call_propagates_client_error_witness :
    eErr.call "x" (some Dict.empty) =
      (Except.error (EmbedderError.clientError "boom"),
       [Event.clientCall "x" (compose_model_kwargs eErr.model_kwargs Dict.empty)
          Embedder.model_type]) :=
  call_propagates_client_error eErr "x" Dict.empty "boom" rfl

/-- Claim C7: construction (of a validly configured embedder) triggers the
client's synchronous-channel initialization exactly once, eagerly — no `call`
ever triggers it — and if that initialization raises, construction itself
fails with the client's exception propagated unchanged. -/
theorem construct_eager_init {ι V ρ σ ε : Type} (c : APIClient ι V ρ ε)
    (d : Dict V) (procOpt : Option (ρ → σ))
    (hm : (d "model").isSome = true) :
    (((Embedder.construct c d procOpt).2.filter Event.isInit).length = 1
      ∧ ∀ (e : Embedder ι V ρ σ ε) (input : ι) (mo : Option (Dict V)),
          ((e.call input mo).2.filter Event.isInit).length = 0) ∧
    (∀ err, c.initResult = Except.error err →
      (Embedder.construct c d procOpt).1
        = Except.error (EmbedderError.clientError err)) := by
  refine ⟨⟨?_, ?_⟩, ?_⟩
  · unfold Embedder.construct
    simp only [Dict.hasKey, hm]
    cases c.initResult <;> simp [Event.isInit]
  · intro e input mo
    unfold Embedder.call Embedder.update_default_model_kwargs Embedder.model_type
    cases mo with
    | none => simp
    | some o =>
        cases hres : e.model_client.callFn input
            (compose_model_kwargs e.model_kwargs o) ModelType.EMBEDDER with
        | error err => simp [hres, Event.isInit]
        | ok r =>
            cases hp : e.output_processors <;> simp [hres, hp, Event.isInit]
  · intro err herr
    simp [Embedder.construct, Dict.hasKey, hm, herr]

/-- Concrete run of `construct_eager_init` with the client `cInitFail`, whose
initialization raises "initfail": construction fails with that exception. -/
theorem construct_eager_init_witness :
    (Embedder.construct cInitFail DmEx (none : Option (String → String))).1
      = Except.error (EmbedderError.clientError "initfail") :=
  (construct_eager_init cInitFail DmEx none (by decide)).2 "initfail" rfl

/-- Claim C8: every invocation of `call` (with a mapping argument) performs
exactly one client call, passing the input, the merged configuration and the
fixed `EMBEDDER` model-type tag, whatever the client outcome and whether or
not a processor is wired. -/
theorem call_passes_embedder_tag {ι V ρ σ ε : Type} (e : Embedder ι V ρ σ ε)
    (input : ι) (o : Dict V) :
    (e.call input (some o)).2.filter Event.isClientCall
      = [Event.clientCall input (compose_model_kwargs e.model_kwargs o)
           ModelType.EMBEDDER] := by
  unfold Embedder.call Embedder.update_default_model_kwargs Embedder.model_type
  cases hres : e.model_client.callFn input
      (compose_model_kwargs e.model_kwargs o) ModelType.EMBEDDER with
  | error err => simp [hres, Event.isClientCall]
  | ok r =>
      cases hp : e.output_processors <;> simp [hres, hp, Event.isClientCall]

/-- Claim C9: end-to-end scenario — constructing with defaults
`{"model": "text-embed-v1"}` and no output processor succeeds and yields the
embedder `e9`; calling it with input "hello" and overrides
`{"model": "text-embed-v2"}` makes the client receive exactly the merged
mapping `{"model": "text-embed-v2"}` with the `EMBEDDER` tag, and `call`
returns the no-result signal. -/
theorem end_to_end_override :
    (Embedder.construct cEx Dv1 (none : Option (String → String))).1
      = Except.ok e9 ∧
    (e9.call "hello" (some Ov2)).1 = Except.ok none ∧
    (e9.call "hello" (some Ov2)).2
      = [Event.clientCall "hello" (compose_model_kwargs e9.model_kwargs Ov2)
           ModelType.EMBEDDER] ∧
    (∀ k, compose_model_kwargs e9.model_kwargs Ov2 k
      = if k = "model" then some "text-embed-v2" else none) := by
  refine ⟨rfl, rfl, rfl, ?_⟩
  intro k
  by_cases hk : k = "model"
  · simp [compose_model_kwargs, Ov2, Dict.single, hk]
  · simp [compose_model_kwargs, Ov2, Dv1, Dict.single, e9, Dict.copy, hk]

/-- Claim C10: explicitly passing an absent (`None`) overrides value to
`call` raises a `TypeError` before the client is ever invoked (the trace is
empty), while passing any mapping proceeds to exactly one client call. -/
theorem call_none_kwargs_type_error {ι V ρ σ ε : Type}
    (e : Embedder ι V ρ σ ε) (input : ι) :
    (e.call input none
      = (Except.error (EmbedderError.typeError typeErrorMsg),
         ([] : List (Event ι V ρ)))) ∧
    (∀ o : Dict V,
      ((e.call input (some o)).2.filter Event.isClientCall).length = 1) := by
  constructor
  · rfl
  · intro o
    unfold Embedder.call Embedder.update_default_model_kwargs Embedder.model_type
    cases hres : e.model_client.callFn input
        (compose_model_kwargs e.model_kwargs o) ModelType.EMBEDDER with
    | error err => simp [hres, Event.isClientCall]
    | ok r =>
        cases hp : e.output_processors <;> simp [hres, hp, Event.isClientCall]
